import Mathlib

/-!
Shallow embedding of the chookscord module-lifecycle loader
(`src/unnamed/part_001`): the key builder, the command/event handler
envelopes, the command/event/script stores, and the load/unload
operations.  JavaScript `Map`s are modelled as association lists with
JS `Map.set` semantics (replace in place, else append); the Discord
client's listener table is a list of (event-name, listener) pairs in
attach order; async functions that may reject are modelled as
state-passing functions returning `Except`.
-/

namespace Chooks

/-- Log severity levels of the consumed logger interface. -/
inductive Level where
  | info
  | warn
  | error
deriving DecidableEq, Repr

/-- One log entry produced by the loader or by a handler envelope.
`viaChild` records whether the entry went through the per-call child
logger carrying the correlation id (`logger`) or through the un-scoped
logger (`_logger` / the plain logger argument). -/
structure LogEntry where
  level : Level
  viaChild : Bool
  msg : String
deriving DecidableEq, Repr

/-- JS `Map.get`: the value stored at `k`, if any. -/
def mapGet [DecidableEq κ] : List (κ × β) → κ → Option β
  | [], _ => none
  | (k', v) :: rest, k => if k' = k then some v else mapGet rest k

/-- JS `Map.has`. -/
def mapHas [DecidableEq κ] (m : List (κ × β)) (k : κ) : Bool :=
  (mapGet m k).isSome

/-- JS `Map.set`: replace the entry in place if the key exists, else append. -/
def mapSet [DecidableEq κ] : List (κ × β) → κ → β → List (κ × β)
  | [], k, v => [(k, v)]
  | (k', v') :: rest, k, v =>
      if k' = k then (k, v) :: rest else (k', v') :: mapSet rest k v

/-- Modelled from the spec: `createKey` (imported from `../internals`,
not among the sources) composes an ordered list of name segments into
one canonical key by joining them with the `:` separator.  The source
calls it variadically: `createKey(command.name)`,
`createKey('cmd', parentKey)`, `createKey(parentName, group.name, subcommand.name)`,
`createKey('auto', parentKey, option.name)`. -/
def createKey : List String → String
  | [] => ""
  | [k] => k
  | k :: ks => k ++ ":" ++ createKey ks

/-- The spec's `buildKey(kind, ...segments)` contract surface for the
key builder: a kind tag followed by the name segments. -/
def buildKey (kind : String) (segments : List String) : String :=
  createKey (kind :: segments)

/-- A command definition's option node (`Option` in the source).  The
`token` stands for the identity of the compiled `execute` closure built
from this node's `setup`/`execute`/`autocomplete` functions;
`autocomplete` records whether the option declares an autocomplete
handler. -/
inductive Opt where
  | mk (name : String) (type : String) (token : Nat)
       (autocomplete : Bool) (options : List Opt)

def Opt.name : Opt → String
  | .mk n _ _ _ _ => n

def Opt.type : Opt → String
  | .mk _ t _ _ _ => t

def Opt.token : Opt → Nat
  | .mk _ _ tk _ _ => tk

def Opt.autocomplete : Opt → Bool
  | .mk _ _ _ a _ => a

def Opt.options : Opt → List Opt
  | .mk _ _ _ _ os => os

/-- Modelled from the spec: `getAutocompletes` (imported from
`../internals`, not among the sources) selects the options that declare
an autocomplete handler. -/
def getAutocompletes (options : List Opt) : List Opt :=
  options.filter (·.autocomplete)

/-- A compiled entry of the command store: `store.set(key, { execute, logger })`.
`token` is the identity of the `execute` envelope closure; `scope` is
the namespace given to the logger factory (`pino('subcommand', key)` …). -/
structure CmdModule where
  token : Nat
  scope : String
deriving DecidableEq, Repr

/-- The command store (`CommandStore`): key → compiled handler. -/
abbrev CommandStore := List (String × CmdModule)

/-- `loadAutocompletes`: one `auto:<parent>:<option>` entry per option
declaring an autocomplete handler. -/
def loadAutocompletes (store : CommandStore) (parentKey : String)
    (options : List Opt) : CommandStore :=
  (getAutocompletes options).foldl
    (fun st opt =>
      mapSet st (createKey ["auto", parentKey, opt.name]) ⟨opt.token, "autocomplete"⟩)
    store

/-- `loadSubcommand`: registers `cmd:<parent>:<sub>` plus the
subcommand's autocompletes under the same nesting prefix. -/
def loadSubcommand (store : CommandStore) (parentName : String)
    (subcommand : Opt) : CommandStore :=
  let parentKey := createKey [parentName, subcommand.name]
  let key := createKey ["cmd", parentKey]
  let st := mapSet store key ⟨subcommand.token, "subcommand"⟩
  loadAutocompletes st parentKey subcommand.options

/-- `loadSubcommandGroup`: for each nested subcommand, registers
`cmd:<parent>:<group>:<sub>` plus its autocompletes.  No entry is made
for the group itself. -/
def loadSubcommandGroup (store : CommandStore) (parentName : String)
    (group : Opt) : CommandStore :=
  group.options.foldl
    (fun st subcommand =>
      let parentKey := createKey [parentName, group.name, subcommand.name]
      let key := createKey ["cmd", parentKey]
      let st1 := mapSet st key ⟨subcommand.token, "subcommand"⟩
      loadAutocompletes st1 parentKey subcommand.options)
    store

/-- A slash command with subcommands (`SlashSubcommand`). -/
structure SlashSubcommandDef where
  name : String
  options : List Opt

/-- `loadSlashSubcommand`: dispatches each option on its `type` string;
options that are neither `SUB_COMMAND` nor `SUB_COMMAND_GROUP` fall
through both `if`s and are skipped. -/
def loadSlashSubcommand (store : CommandStore)
    (command : SlashSubcommandDef) : CommandStore :=
  command.options.foldl
    (fun st option =>
      if option.type = "SUB_COMMAND" then
        loadSubcommand st command.name option
      else if option.type = "SUB_COMMAND_GROUP" then
        loadSubcommandGroup st command.name option
      else
        st)
    store

/-! ## Execution envelopes -/

/-- An async computation over world state `σ` that yields `δ` or rejects
with a JS error (modelled as its message string). -/
abbrev EAction (σ δ : Type) := σ → σ × Except String δ

/-- The shared envelope closure of every command-family loader
(`loadSlashCommand`, `loadSubcommand`, `loadSubcommandGroup`,
`loadUserCommand`, `loadMessageCommand`, `loadAutocompletes`):
`async ctx => { const deps = await setup(); await raw.call(deps, ctx) }`.
There is no try/catch and no logging inside this closure; a failure of
`setup` or of the raw handler rejects the returned promise. -/
def commandEnvelope (setup : EAction σ δ) (exec : δ → EAction σ Unit)
    (s : σ) : σ × List LogEntry × Except String Unit :=
  match setup s with
  | (s1, Except.error e) => (s1, [], Except.error e)
  | (s1, Except.ok deps) =>
      match exec deps s1 with
      | (s2, Except.error e) => (s2, [], Except.error e)
      | (s2, Except.ok _) => (s2, [], Except.ok ())

def runningMsg (n : String) : String :=
  "Running handler for \"" ++ n ++ "\"..."

def successMsg (n : String) : String :=
  "Successfully ran handler for \"" ++ n ++ "\"."

def failInfoMsg (n : String) : String :=
  "Handler for \"" ++ n ++ "\" did not run successfully."

def unexpectedErrorMsg : String :=
  "An unexpected error has occured!"

/-- The event envelope built inside `loadEvent`: generates a correlation
id, derives a child logger, runs `setup` then the raw handler inside a
`try`, and on any failure logs through the un-scoped logger at info
severity and through the child logger at error severity (twice: the
fixed message, then the error value), always resolving. -/
def eventEnvelope (evName : String) (setup : EAction σ δ)
    (exec : δ → EAction σ Unit) (s : σ) :
    σ × List LogEntry × Except String Unit :=
  match setup s with
  | (s1, Except.error e) =>
      (s1, [⟨Level.info, false, failInfoMsg evName⟩,
            ⟨Level.error, true, unexpectedErrorMsg⟩,
            ⟨Level.error, true, e⟩], Except.ok ())
  | (s1, Except.ok deps) =>
      match exec deps s1 with
      | (s2, Except.error e) =>
          (s2, [⟨Level.info, true, runningMsg evName⟩,
                ⟨Level.info, false, failInfoMsg evName⟩,
                ⟨Level.error, true, unexpectedErrorMsg⟩,
                ⟨Level.error, true, e⟩], Except.ok ())
      | (s2, Except.ok _) =>
          (s2, [⟨Level.info, true, runningMsg evName⟩,
                ⟨Level.info, true, successMsg evName⟩], Except.ok ())

/-! ## Event store operations -/

/-- An entry of the event store: the event name together with the
wrapped listener closure attached to the client.  The listener closure
is identified by a value of type `α` (each `loadEvent` call constructs
a fresh closure, so fresh calls carry fresh identities). -/
structure EvModule (α : Type) where
  name : String
  execute : α
deriving DecidableEq, Repr

abbrev EventStore (α : Type) := List (String × EvModule α)

/-- The client's listener table: (event name, listener) pairs in attach
order.  `once` registration differs from `on` only at emit time
(auto-removal after one firing), not in what gets attached, so both are
modelled as an append. -/
abbrev Client (α : Type) := List (String × α)

/-- `client.on(name, fn)` / `client.once(name, fn)`. -/
def clientOn (c : Client α) (n : String) (f : α) : Client α :=
  c ++ [(n, f)]

/-- `client.off(name, fn)`: removes at most one attached (name, fn) pair. -/
def clientOff [DecidableEq α] : Client α → String → α → Client α
  | [], _, _ => []
  | (n', f') :: rest, n, f =>
      if n' = n ∧ f' = f then rest
      else (n', f') :: clientOff rest n f

/-- The listeners attached for event name `n`, in attach order. -/
def listenersOf (c : Client α) (n : String) : List α :=
  (c.filter (fun p => p.1 == n)).map Prod.snd

/-- An event definition's registration-relevant fields (`Event`). -/
structure EventDef where
  name : String
  once : Bool
deriving DecidableEq, Repr

/-- `loadEvent`'s store/client bookkeeping.  `execute` is the freshly
built envelope closure for this call.  The source's duplicate branch is
kept verbatim: it checks the store at `key`, reads the old entry at
`event.name` (`store.get(event.name)!` — the non-null assertion turns a
missing entry into a thrown `TypeError`), and detaches with `key` in
the event-name position (`client.off(key, oldListener.execute)`). -/
def loadEvent [DecidableEq α] (store : EventStore α) (client : Client α)
    (key : String) (event : EventDef) (execute : α) :
    Except String (EventStore α × Client α) :=
  if mapHas store key then
    match mapGet store event.name with
    | none => Except.error "TypeError"
    | some oldListener =>
        let client1 := clientOff client key oldListener.execute
        Except.ok (mapSet store key ⟨event.name, execute⟩,
                   clientOn client1 event.name execute)
  else
    Except.ok (mapSet store key ⟨event.name, execute⟩,
               clientOn client event.name execute)

def unloadWarnMsg : String :=
  "Tried to unload an event that was not saved!"

def unloadedMsg (n : String) : String :=
  "Unloaded \"" ++ n ++ "\" listener!"

/-- `unloadEvent`: warns (through the optional logger) and returns when
the key is absent; otherwise detaches the stored listener and logs.
The store itself is never mutated. -/
def unloadEvent [DecidableEq α] (store : EventStore α) (client : Client α)
    (key : String) (hasLogger : Bool) :
    EventStore α × Client α × List LogEntry :=
  match mapGet store key with
  | none =>
      (store, client,
       if hasLogger then [⟨Level.warn, false, unloadWarnMsg⟩] else [])
  | some event =>
      (store, clientOff client event.name event.execute,
       if hasLogger then [⟨Level.info, false, unloadedMsg event.name⟩] else [])

/-! ## Script store operations -/

/-- A script's cleanup function: async, may reject. -/
abbrev Cleanup (σ : Type) := σ → σ × Except String Unit

/-- The script cleanup store: relative path → cleanup function. -/
abbrev ScriptStore (σ : Type) := List (String × Cleanup σ)

def cleanupErrMsg (relpath : String) : String :=
  "Cleanup function at " ++ relpath ++ " threw an error!"

/-- `unloadScript`: returns silently when no cleanup is stored for the
file's relative path (computed externally by `node:path`'s `relative`,
here taken as the argument); otherwise invokes the stored cleanup,
catching a rejection and logging it at error severity (the fixed
message, then the error value).  The entry is never removed from the
store, and the returned promise always resolves. -/
def unloadScript (store : ScriptStore σ) (relpath : String) (s : σ) :
    ScriptStore σ × σ × List LogEntry :=
  match mapGet store relpath with
  | none => (store, s, [])
  | some cleanup =>
      match cleanup s with
      | (s1, Except.ok _) => (store, s1, [])
      | (s1, Except.error e) =>
          (store, s1, [⟨Level.error, false, cleanupErrMsg relpath⟩,
                       ⟨Level.error, false, e⟩])

/-! ## Helper lemmas -/

theorem foldl_filter_of_skip {β γ : Type} (f : β → γ → β) (p : γ → Bool)
    (hf : ∀ b o, p o = false → f b o = b) :
    ∀ (l : List γ) (b : β), (l.filter p).foldl f b = l.foldl f b := by
  intro l
  induction l with
  | nil => intro b; rfl
  | cons o os ih =>
      intro b
      cases hp : p o with
      | false =>
          rw [List.filter_cons, if_neg (by simp [hp]), List.foldl_cons, hf b o hp]
          exact ih b
      | true =>
          rw [List.filter_cons, if_pos (by simp [hp]), List.foldl_cons, List.foldl_cons]
          exact ih (f b o)

theorem intercalate_cons_cons {α : Type} (sep : List α) (a b : List α)
    (l : List (List α)) :
    List.intercalate sep (a :: b :: l) = a ++ sep ++ List.intercalate sep (b :: l) := by
  simp [List.intercalate, List.intersperse_cons_cons]

theorem createKey_data :
    ∀ (ks : List String),
      (createKey ks).data = List.intercalate [':'] (ks.map String.data) := by
  intro ks
  induction ks with
  | nil => simp [createKey, List.intercalate]
  | cons k ks ih =>
      cases ks with
      | nil => simp [createKey, List.intercalate]
      | cons k2 ks' =>
          have hmap : List.map String.data (k :: k2 :: ks')
              = k.data :: k2.data :: List.map String.data ks' := rfl
          rw [createKey, hmap, intercalate_cons_cons, ← List.map_cons, ← ih,
              String.data_append, String.data_append]
          simp

theorem createKey_inj (ks1 ks2 : List String)
    (h1 : ∀ s ∈ ks1, ':' ∉ s.data) (h2 : ∀ s ∈ ks2, ':' ∉ s.data)
    (hne1 : ks1 ≠ []) (hne2 : ks2 ≠ [])
    (h : createKey ks1 = createKey ks2) : ks1 = ks2 := by
  have hd : (createKey ks1).data = (createKey ks2).data := by rw [h]
  rw [createKey_data, createKey_data] at hd
  have e1 : (List.intercalate [':'] (ks1.map String.data)).splitOn ':'
      = ks1.map String.data := by
    refine List.splitOn_intercalate _ ':' ?_ ?_
    · intro l hl
      obtain ⟨s, hs, rfl⟩ := List.mem_map.mp hl
      exact h1 s hs
    · simpa using hne1
  have e2 : (List.intercalate [':'] (ks2.map String.data)).splitOn ':'
      = ks2.map String.data := by
    refine List.splitOn_intercalate _ ':' ?_ ?_
    · intro l hl
      obtain ⟨s, hs, rfl⟩ := List.mem_map.mp hl
      exact h2 s hs
    · simpa using hne2
  have hmap : ks1.map String.data = ks2.map String.data := by
    rw [← e1, ← e2, hd]
  exact List.map_injective_iff.mpr (fun a b hab => String.ext hab) hmap

/-! ## Claim theorems -/

/-- C3: compiling the slash command `p` whose options hold the
subcommand group `{name:"g", options:[{name:"s1", type:"SUB_COMMAND"}]}`
registers exactly the key `cmd:p:g:s1` in the command store, and no
entry at `cmd:p:g` nor at `cmd:p`. -/
theorem c3_subcommand_group_key :
    loadSlashSubcommand []
        ⟨"p", [Opt.mk "g" "SUB_COMMAND_GROUP" 7 false
                 [Opt.mk "s1" "SUB_COMMAND" 9 false []]]⟩ =
      [("cmd:p:g:s1", ⟨9, "subcommand"⟩)] ∧
    mapGet (loadSlashSubcommand []
        ⟨"p", [Opt.mk "g" "SUB_COMMAND_GROUP" 7 false
                 [Opt.mk "s1" "SUB_COMMAND" 9 false []]]⟩) "cmd:p:g" = none ∧
    mapGet (loadSlashSubcommand []
        ⟨"p", [Opt.mk "g" "SUB_COMMAND_GROUP" 7 false
                 [Opt.mk "s1" "SUB_COMMAND" 9 false []]]⟩) "cmd:p" = none := by
  refine ⟨rfl, rfl, rfl⟩

/-- Whether an option is picked up by `loadSlashSubcommand`'s dispatch. -/
def isSubOption (o : Opt) : Bool :=
  o.type == "SUB_COMMAND" || o.type == "SUB_COMMAND_GROUP"

/-- C10: options of any other type are silently skipped — compiling a
command equals compiling it with those options dropped, and the
compiler is a total function into the store (no error, no structured
failure is ever produced). -/
theorem c10_other_option_types_skipped (store : CommandStore)
    (command : SlashSubcommandDef) :
    loadSlashSubcommand store command =
      loadSlashSubcommand store ⟨command.name, command.options.filter isSubOption⟩ := by
  obtain ⟨n, opts⟩ := command
  simp only [loadSlashSubcommand]
  refine (foldl_filter_of_skip _ isSubOption ?_ opts store).symm
  intro st o hskip
  simp only [isSubOption, Bool.or_eq_false_iff, beq_eq_false_iff_ne] at hskip
  rw [if_neg hskip.1, if_neg hskip.2]

/-- C8 counterexample: with the `:` separator allowed inside a segment,
two distinct tuples of non-empty segments produce the same key, so the
key builder is not injective over all non-empty-segment tuples. -/
theorem c8_counterexample :
    buildKey "cmd" ["a:b"] = buildKey "cmd" ["a", "b"] ∧
      ("a:b" ≠ "" ∧ "a" ≠ "" ∧ "b" ≠ "") ∧
      ¬("cmd" = "cmd" ∧ (["a:b"] : List String) = ["a", "b"]) := by
  refine ⟨rfl, by decide, by decide⟩

/-- C8 (amended): the key builder is deterministic, and injective over
(kind, segment-list) tuples whose kind and segments are non-empty and
do not contain the `:` separator: such tuples produce equal keys
exactly when they are equal. -/
theorem c8_buildKey_injective (k1 k2 : String) (s1 s2 : List String)
    (hk1 : k1 ≠ "" ∧ ':' ∉ k1.data) (hk2 : k2 ≠ "" ∧ ':' ∉ k2.data)
    (hs1 : ∀ s ∈ s1, s ≠ "" ∧ ':' ∉ s.data)
    (hs2 : ∀ s ∈ s2, s ≠ "" ∧ ':' ∉ s.data) :
    buildKey k1 s1 = buildKey k2 s2 ↔ (k1 = k2 ∧ s1 = s2) := by
  constructor
  · intro h
    have := createKey_inj (k1 :: s1) (k2 :: s2)
      (by intro s hs
          rcases List.mem_cons.mp hs with rfl | hmem
          · exact hk1.2
          · exact (hs1 s hmem).2)
      (by intro s hs
          rcases List.mem_cons.mp hs with rfl | hmem
          · exact hk2.2
          · exact (hs2 s hmem).2)
      (by simp) (by simp) h
    exact ⟨(List.cons.injEq _ _ _ _ ▸ this).1, (List.cons.injEq _ _ _ _ ▸ this).2⟩
  · rintro ⟨rfl, rfl⟩
    rfl

/-- C8 witness: the amended injectivity theorem applied at concrete
colon-free tuples. -/
theorem c8_buildKey_injective_witness :
    buildKey "cmd" ["p", "g"] = buildKey "cmd" ["p", "s"] ↔
      ("cmd" = "cmd" ∧ (["p", "g"] : List String) = ["p", "s"]) :=
  c8_buildKey_injective "cmd" "cmd" ["p", "g"] ["p", "s"]
    (by decide) (by decide) (by decide) (by decide)

/-- Error-severity entries among an envelope's log output. -/
def errorCount (logs : List LogEntry) : Nat :=
  (logs.filter (fun en => en.level == Level.error)).length

/-- A `setup` that succeeds without touching the world. -/
def setupOk : EAction Nat Unit := fun s => (s, Except.ok ())

/-- A raw handler that rejects. -/
def execBoom : Unit → EAction Nat Unit := fun _ s => (s, Except.error "boom")

/-- A `setup` that rejects. -/
def setupBoom : EAction Nat Unit := fun s => (s, Except.error "boom")

/-- A raw handler that succeeds. -/
def execOk : Unit → EAction Nat Unit := fun _ s => (s, Except.ok ())

/-- C1 counterexample: a command-family envelope whose raw handler
rejects yields a rejected envelope promise and zero error-severity log
entries — not a resolved promise with exactly one error entry. -/
theorem c1_counterexample :
    (commandEnvelope setupOk execBoom 0).2.2 = Except.error "boom" ∧
    errorCount (commandEnvelope setupOk execBoom 0).2.1 = 0 := by
  exact ⟨rfl, rfl⟩

/-- C1 (amended): when the raw handler rejects, an event envelope still
resolves and produces exactly two error-severity entries, while a
command-family envelope produces no log entry and rejects with the raw
error. -/
theorem c1_raw_failure_behaviour {σ δ : Type} (evName : String)
    (setup : EAction σ δ) (exec : δ → EAction σ Unit) (s s1 s2 : σ)
    (deps : δ) (e : String)
    (hsetup : setup s = (s1, Except.ok deps))
    (hexec : exec deps s1 = (s2, Except.error e)) :
    (eventEnvelope evName setup exec s).2.2 = Except.ok () ∧
    errorCount (eventEnvelope evName setup exec s).2.1 = 2 ∧
    (commandEnvelope setup exec s).2.2 = Except.error e ∧
    errorCount (commandEnvelope setup exec s).2.1 = 0 := by
  simp [eventEnvelope, commandEnvelope, hsetup, hexec, errorCount]

/-- C1 witness: the amended theorem at a concrete rejecting handler. -/
theorem c1_raw_failure_behaviour_witness :
    (setupOk 0 = (0, Except.ok ()) ∧ execBoom () 0 = (0, Except.error "boom")) ∧
    ((eventEnvelope "ready" setupOk execBoom 0).2.2 = Except.ok () ∧
     errorCount (eventEnvelope "ready" setupOk execBoom 0).2.1 = 2 ∧
     (commandEnvelope setupOk execBoom 0).2.2 = Except.error "boom" ∧
     errorCount (commandEnvelope setupOk execBoom 0).2.1 = 0) :=
  ⟨⟨rfl, rfl⟩, c1_raw_failure_behaviour "ready" setupOk execBoom 0 0 0 () "boom" rfl rfl⟩

/-- A `setup` returning a strictly incrementing counter: the world is
(next counter value, contexts received so far by the raw handler). -/
def counterSetup : EAction (Nat × List Nat) Nat :=
  fun w => ((w.1 + 1, w.2), Except.ok w.1)

/-- A raw handler recording the DependencyContext it was invoked with. -/
def recordExec : Nat → EAction (Nat × List Nat) Unit :=
  fun deps w => ((w.1, w.2 ++ [deps]), Except.ok ())

/-- `n` invocations of the command-family envelope. -/
def invokeCmdN : Nat → Nat × List Nat → Nat × List Nat
  | 0, w => w
  | n + 1, w => invokeCmdN n (commandEnvelope counterSetup recordExec w).1

/-- `n` invocations of the event envelope. -/
def invokeEvtN : Nat → Nat × List Nat → Nat × List Nat
  | 0, w => w
  | n + 1, w => invokeEvtN n (eventEnvelope "ready" counterSetup recordExec w).1

theorem invokeCmdN_eq (n : Nat) :
    ∀ (k : Nat) (ds : List Nat),
      invokeCmdN n (k, ds) = (k + n, ds ++ List.range' k n) := by
  induction n with
  | zero => intro k ds; simp [invokeCmdN]
  | succ m ih =>
      intro k ds
      have hstep : (commandEnvelope counterSetup recordExec (k, ds)).1
          = (k + 1, ds ++ [k]) := rfl
      rw [invokeCmdN, hstep, ih (k + 1) (ds ++ [k]), List.range'_succ,
          Prod.mk.injEq]
      exact ⟨by omega, by simp⟩

theorem invokeEvtN_eq (n : Nat) :
    ∀ (k : Nat) (ds : List Nat),
      invokeEvtN n (k, ds) = (k + n, ds ++ List.range' k n) := by
  induction n with
  | zero => intro k ds; simp [invokeEvtN]
  | succ m ih =>
      intro k ds
      have hstep : (eventEnvelope "ready" counterSetup recordExec (k, ds)).1
          = (k + 1, ds ++ [k]) := rfl
      rw [invokeEvtN, hstep, ih (k + 1) (ds ++ [k]), List.range'_succ,
          Prod.mk.injEq]
      exact ⟨by omega, by simp⟩

/-- C4: invoking a compiled handler (command-family or event) `n` times
with a strictly incrementing `setup` counter performs `n` `setup` calls
(the counter ends at `n`) and hands the raw handler `n` pairwise
distinct DependencyContext values `0, 1, …, n-1` — no context is ever
cached, reused, or shared between invocations. -/
theorem c4_fresh_setup_per_invocation (n : Nat) :
    invokeCmdN n (0, []) = (n, List.range n) ∧
    invokeEvtN n (0, []) = (n, List.range n) ∧
    (List.range n).Nodup ∧ (List.range n).length = n := by
  refine ⟨?_, ?_, List.nodup_range n, List.length_range n⟩
  · rw [invokeCmdN_eq n 0 [], List.range_eq_range']
    simp
  · rw [invokeEvtN_eq n 0 [], List.range_eq_range']
    simp

/-- C5 counterexample: a command-family envelope whose `setup` rejects
yields a rejected envelope promise and no log entry — not a logged
failure with a resolved promise. -/
theorem c5_counterexample :
    commandEnvelope setupBoom execOk 0 = (0, [], Except.error "boom") := rfl

/-- C5 (amended): when `setup` rejects, neither envelope ever invokes
the raw handler (the result does not depend on it); the event envelope
logs the failure (one unscoped info and two error-severity entries) and
resolves, while the command-family envelope logs nothing and rejects
with the setup error. -/
theorem c5_setup_failure_behaviour {σ δ : Type} (evName : String)
    (setup : EAction σ δ) (s s1 : σ) (e : String)
    (hsetup : setup s = (s1, Except.error e))
    (exec exec' : δ → EAction σ Unit) :
    eventEnvelope evName setup exec s =
      (s1, [⟨Level.info, false, failInfoMsg evName⟩,
            ⟨Level.error, true, unexpectedErrorMsg⟩,
            ⟨Level.error, true, e⟩], Except.ok ()) ∧
    eventEnvelope evName setup exec s = eventEnvelope evName setup exec' s ∧
    commandEnvelope setup exec s = (s1, [], Except.error e) ∧
    commandEnvelope setup exec s = commandEnvelope setup exec' s := by
  refine ⟨?_, ?_, ?_, ?_⟩ <;> simp [eventEnvelope, commandEnvelope, hsetup]

/-- C5 witness: the amended theorem at a concrete rejecting `setup`. -/
theorem c5_setup_failure_behaviour_witness :
    setupBoom 0 = (0, Except.error "boom") ∧
    (eventEnvelope "ready" setupBoom execOk 0 =
      (0, [⟨Level.info, false, failInfoMsg "ready"⟩,
           ⟨Level.error, true, unexpectedErrorMsg⟩,
           ⟨Level.error, true, "boom"⟩], Except.ok ()) ∧
     eventEnvelope "ready" setupBoom execOk 0 =
       eventEnvelope "ready" setupBoom execBoom 0 ∧
     commandEnvelope setupBoom execOk 0 = (0, [], Except.error "boom") ∧
     commandEnvelope setupBoom execOk 0 = commandEnvelope setupBoom execBoom 0) :=
  ⟨rfl, c5_setup_failure_behaviour "ready" setupBoom 0 0 "boom" rfl execOk execBoom⟩

/-- C2: evaluating `loadEvent` at inputs where the registration key
differs from the event's name.  First scenario (two calls for key `k`,
event name `n`): the duplicate branch reads the old entry at
`store.get(event.name)`, finds nothing, and the non-null assertion
turns the second call into a thrown `TypeError` — nothing is detached
or attached.  Second scenario (an unrelated entry exists at key `n`):
the second call for key `k` "detaches" via `client.off(key, …)` with
the wrong event name and the wrong listener, so the old listener for
key `k` stays attached and three listeners for `n` are live — not
exactly one. -/
theorem c2_failing_input_eval :
    (loadEvent ([] : EventStore Nat) [] "k" ⟨"n", false⟩ 1 =
       Except.ok ([("k", ⟨"n", 1⟩)], [("n", 1)])) ∧
    (loadEvent [("k", (⟨"n", 1⟩ : EvModule Nat))] [("n", 1)] "k" ⟨"n", false⟩ 2 =
       Except.error "TypeError") ∧
    (loadEvent [("n", (⟨"n", 1⟩ : EvModule Nat)), ("k", ⟨"n", 2⟩)]
        [("n", 1), ("n", 2)] "k" ⟨"n", false⟩ 3 =
       Except.ok ([("n", ⟨"n", 1⟩), ("k", ⟨"n", 3⟩)],
                  [("n", 1), ("n", 2), ("n", 3)])) ∧
    listenersOf [("n", (1 : Nat)), ("n", 2), ("n", 3)] "n" = [1, 2, 3] := by
  refine ⟨rfl, rfl, rfl, rfl⟩

/-- C9: `unloadEvent` never removes the store entry: with a stored
entry at `key`, the call detaches the stored listener, keeps the store
identical (every other entry included), and a second `unloadEvent` on
the same key detaches again and logs only the info entry — no
missing-entry warning. -/
theorem c9_unloadEvent_keeps_store {α : Type} [DecidableEq α]
    (st : EventStore α) (c : Client α) (key : String) (hasLogger : Bool)
    (ev : EvModule α) (h : mapGet st key = some ev) :
    unloadEvent st c key hasLogger =
      (st, clientOff c ev.name ev.execute,
       if hasLogger then [⟨Level.info, false, unloadedMsg ev.name⟩] else []) ∧
    unloadEvent st (clientOff c ev.name ev.execute) key true =
      (st, clientOff (clientOff c ev.name ev.execute) ev.name ev.execute,
       [⟨Level.info, false, unloadedMsg ev.name⟩]) := by
  refine ⟨?_, ?_⟩ <;> simp [unloadEvent, h]

/-- C9 witness: both unload calls at a concrete registered event. -/
theorem c9_unloadEvent_keeps_store_witness :
    mapGet [("ready", (⟨"ready", 5⟩ : EvModule Nat))] "ready" = some ⟨"ready", 5⟩ ∧
    (unloadEvent [("ready", (⟨"ready", 5⟩ : EvModule Nat))] [("ready", 5)] "ready" true =
       ([("ready", ⟨"ready", 5⟩)], clientOff [("ready", 5)] "ready" 5,
        if true then [⟨Level.info, false, unloadedMsg "ready"⟩] else []) ∧
     unloadEvent [("ready", (⟨"ready", 5⟩ : EvModule Nat))]
         (clientOff [("ready", 5)] "ready" 5) "ready" true =
       ([("ready", ⟨"ready", 5⟩)],
        clientOff (clientOff [("ready", 5)] "ready" 5) "ready" 5,
        [⟨Level.info, false, unloadedMsg "ready"⟩])) :=
  ⟨rfl, c9_unloadEvent_keeps_store [("ready", ⟨"ready", 5⟩)] [("ready", 5)]
    "ready" true ⟨"ready", 5⟩ rfl⟩

/-- A cleanup function that rejects. -/
def boomCleanup : Cleanup Nat := fun s => (s, Except.error "boom")

/-- C6 counterexample: after `unloadScript` runs (and logs) a failing
cleanup, the entry is still present in the script cleanup store — it is
never removed. -/
theorem c6_counterexample :
    (unloadScript [("ready.js", boomCleanup)] "ready.js" 0).1 =
      [("ready.js", boomCleanup)] ∧
    mapHas (unloadScript [("ready.js", boomCleanup)] "ready.js" 0).1 "ready.js" = true ∧
    (unloadScript [("ready.js", boomCleanup)] "ready.js" 0).2.2 =
      [⟨Level.error, false, cleanupErrMsg "ready.js"⟩, ⟨Level.error, false, "boom"⟩] := by
  refine ⟨rfl, rfl, rfl⟩

/-- C6 (amended): for a stored cleanup, `unloadScript` invokes it,
catches a rejection and logs it (two error-severity entries), never
rejects itself — but leaves the store untouched: the entry is not
removed, whether the cleanup succeeded or failed. -/
theorem c6_unloadScript_invokes_and_keeps_entry {σ : Type}
    (store : ScriptStore σ) (relpath : String) (s : σ) (cl : Cleanup σ)
    (h : mapGet store relpath = some cl) :
    (unloadScript store relpath s).1 = store ∧
    (unloadScript store relpath s).2.1 = (cl s).1 ∧
    (unloadScript store relpath s).2.2 =
      (match (cl s).2 with
       | Except.ok _ => []
       | Except.error e => [⟨Level.error, false, cleanupErrMsg relpath⟩,
                            ⟨Level.error, false, e⟩]) := by
  simp only [unloadScript, h]
  rcases hcl : cl s with ⟨s1, r⟩
  cases r <;> simp

/-- C6 witness: the amended theorem at a concrete failing cleanup. -/
theorem c6_unloadScript_witness :
    mapGet [("ready.js", boomCleanup)] "ready.js" = some boomCleanup ∧
    ((unloadScript [("ready.js", boomCleanup)] "ready.js" 0).1 =
       [("ready.js", boomCleanup)] ∧
     (unloadScript [("ready.js", boomCleanup)] "ready.js" 0).2.1 =
       (boomCleanup 0).1 ∧
     (unloadScript [("ready.js", boomCleanup)] "ready.js" 0).2.2 =
       (match (boomCleanup 0).2 with
        | Except.ok _ => []
        | Except.error e => [⟨Level.error, false, cleanupErrMsg "ready.js"⟩,
                             ⟨Level.error, false, e⟩])) :=
  ⟨rfl, c6_unloadScript_invokes_and_keeps_entry [("ready.js", boomCleanup)]
    "ready.js" 0 boomCleanup rfl⟩

/-- C7 counterexample: `unloadScript` for a path with no stored entry
returns silently — zero log entries, not exactly one warning. -/
theorem c7_counterexample :
    unloadScript ([] : ScriptStore Nat) "missing.js" 0 = ([], 0, []) := rfl

/-- C7 (amended): on a key with no stored entry, neither operation
throws, detaches, or runs a cleanup; `unloadEvent` logs exactly one
warning when a logger is provided (and nothing when it is absent),
while `unloadScript` logs nothing at all. -/
theorem c7_missing_entry_behaviour {σ α : Type} [DecidableEq α]
    (st : EventStore α) (c : Client α) (key : String)
    (store : ScriptStore σ) (relpath : String) (s : σ)
    (h1 : mapGet st key = none) (h2 : mapGet store relpath = none) :
    unloadEvent st c key true = (st, c, [⟨Level.warn, false, unloadWarnMsg⟩]) ∧
    unloadEvent st c key false = (st, c, []) ∧
    unloadScript store relpath s = (store, s, []) := by
  refine ⟨?_, ?_, ?_⟩ <;> simp [unloadEvent, unloadScript, h1, h2]

/-- C7 witness: both operations at concrete missing keys. -/
theorem c7_missing_entry_behaviour_witness :
    mapGet ([] : EventStore Nat) "ready" = none ∧
    mapGet ([] : ScriptStore Nat) "missing.js" = none ∧
    (unloadEvent ([] : EventStore Nat) [] "ready" true =
       ([], [], [⟨Level.warn, false, unloadWarnMsg⟩]) ∧
     unloadEvent ([] : EventStore Nat) [] "ready" false = ([], [], []) ∧
     unloadScript ([] : ScriptStore Nat) "missing.js" 0 = ([], 0, [])) :=
  ⟨rfl, rfl, c7_missing_entry_behaviour [] [] "ready" [] "missing.js" 0 rfl rfl⟩

end Chooks
